import Mathlib

/-!
# Verification of the CRS scoring core (better-call-lincon)

Shallow embedding of the CRS (Comprehensive Ranking System) scoring core:
the deterministic scoring engine (`app/ai/crs_agent.py`), the rule-consistency
checker (`app/ai/crs_rule_checker.py`) and the dynamic method selector with its
TTL cache (`app/ai/crs_dynamic.py`).

Python floats appearing as language-test scores are embedded as rationals
(every float value is an exact rational, and the comparisons against the
literal thresholds used by the code agree with the rational comparisons);
Python ints are embedded as `ℤ`; strings as `String`.  External effects
(HTTP fetch, LLM extraction, the AI calculator, wall-clock time) are passed
in explicitly as environment parameters; a Python exception is modelled with
`Except` / explicit error flags.
-/

namespace CRS

/-! ## String helpers (Python `in`, `.lower()`, `.strip()`, `.replace()`) -/

/-- Character-list version of Python `a.startswith(b)` used to build substring search. -/
def leadMatch : List Char → List Char → Bool
  | [], _ => true
  | _ :: _, [] => false
  | a :: as, b :: bs => a == b && leadMatch as bs

/-- `subSeqAt needle hay`: does `needle` occur as a contiguous substring of `hay`? -/
def subSeqAt (needle : List Char) : List Char → Bool
  | [] => needle.isEmpty
  | c :: rest => leadMatch needle (c :: rest) || subSeqAt needle rest

/-- Python `needle in hay` on strings. -/
def strContains (hay needle : String) : Bool :=
  subSeqAt needle.toList hay.toList

/-- ASCII lower-casing of a character (Python `str.lower` restricted to ASCII). -/
def charLower (c : Char) : Char :=
  if 'A' ≤ c ∧ c ≤ 'Z' then Char.ofNat (c.toNat + 32) else c

/-- Python `s.lower()`. -/
def strLower (s : String) : String :=
  String.mk (s.toList.map charLower)

def isSpaceChar (c : Char) : Bool :=
  c == ' ' || c == '\t' || c == '\n' || c == '\r'

/-- Python `s.strip()`. -/
def strStrip (s : String) : String :=
  String.mk (((s.toList.dropWhile isSpaceChar).reverse.dropWhile isSpaceChar).reverse)

/-- Python `s.replace(" ", "_")`. -/
def replaceSpaceUnderscore (s : String) : String :=
  String.mk (s.toList.map (fun c => if c == ' ' then '_' else c))

/-! ## Language test → CLB conversion (`crs_agent.py` lines 22-98) -/

/-- 3.5 as a rational, written as a normalized `Rat` literal so that both the
kernel and the elaborator reduce it cheaply. -/
def band3_5 : ℚ := ⟨7, 2, by decide, by decide⟩

/-- 4.5 as a rational literal. -/
def band4_5 : ℚ := ⟨9, 2, by decide, by decide⟩

/-- 5.5 as a rational literal. -/
def band5_5 : ℚ := ⟨11, 2, by decide, by decide⟩

/-- 6.5 as a rational literal. -/
def band6_5 : ℚ := ⟨13, 2, by decide, by decide⟩

/-- 7.5 as a rational literal. -/
def band7_5 : ℚ := ⟨15, 2, by decide, by decide⟩

/-- 8.5 as a rational literal. -/
def band8_5 : ℚ := ⟨17, 2, by decide, by decide⟩

/-- `_ielts_to_clb`: IELTS band (or absent) to CLB level. -/
def ielts_to_clb : Option ℚ → ℤ
  | none => 0
  | some s =>
    if s ≤ 3 then 4
    else if s ≤ band3_5 then 4
    else if s ≤ 4 then 5
    else if s ≤ band4_5 then 5
    else if s ≤ 5 then 6
    else if s ≤ band5_5 then 6
    else if s ≤ 6 then 7
    else if s ≤ band6_5 then 8
    else if s ≤ 7 then 9
    else if s ≤ band7_5 then 9
    else if s ≤ 8 then 10
    else if s ≤ band8_5 then 10
    else 12

/-- Python `int(float(s))`: truncation toward zero of a rational
(on the normalized pair this is the t-division of numerator by denominator). -/
def truncToZero (q : ℚ) : ℤ :=
  q.num.tdiv q.den

/-- The CELPIP branch helper `_c` inside `_clb_from_scores`. -/
def celpip_to_clb : Option ℚ → ℤ
  | none => 0
  | some s =>
    let v := truncToZero s
    if 1 ≤ v ∧ v ≤ 12 then v else 0

/-- The PTE Core branch helper `_p` inside `_clb_from_scores`. -/
def pte_to_clb : Option ℚ → ℤ
  | none => 0
  | some v =>
    if v < 36 then 4
    else if v < 47 then 5
    else if v < 55 then 6
    else if v < 63 then 7
    else if v < 75 then 8
    else if v < 83 then 9
    else 10

/-- `_clb_from_scores`: convert four raw scores to CLB levels (S, L, R, W).
The test family is selected by substring match on the lower-cased test type;
anything else falls through to the IELTS conversion. -/
def clb_from_scores (test_type : String) (speaking listening reading writing : Option ℚ) :
    ℤ × ℤ × ℤ × ℤ :=
  if test_type ≠ "" ∧ strContains (strLower test_type) "celpip" then
    (celpip_to_clb speaking, celpip_to_clb listening, celpip_to_clb reading, celpip_to_clb writing)
  else if test_type ≠ "" ∧ strContains (strLower test_type) "pte" then
    (pte_to_clb speaking, pte_to_clb listening, pte_to_clb reading, pte_to_clb writing)
  else
    (ielts_to_clb speaking, ielts_to_clb listening, ielts_to_clb reading, ielts_to_clb writing)

/-! ## Point tables (`crs_agent.py` lines 101-240) -/

/-- `_lang_points`: first-official-language per-skill points by CLB. -/
def lang_points (clb : ℤ) (with_spouse : Bool) : ℤ :=
  let p : ℤ × ℤ :=
    if clb = 4 then (0, 0)
    else if clb = 5 then (1, 1)
    else if clb = 6 then (9, 8)
    else if clb = 7 then (17, 15)
    else if clb = 8 then (23, 21)
    else if clb = 9 then (31, 29)
    else if clb = 10 then (34, 32)
    else if clb = 11 then (34, 32)
    else if clb = 12 then (34, 32)
    else (0, 0)
  if with_spouse then p.2 else p.1

/-- `_second_lang_points`. -/
def second_lang_points (clb_min : ℤ) : ℤ :=
  if clb_min ≥ 5 then 6 else 0

/-- `_age_points`. -/
def age_points (age : ℤ) (with_spouse : Bool) : ℤ :=
  if age < 18 then 0
  else if age ≥ 45 then 0
  else if age ≤ 19 then
    let base : ℤ := if age = 18 then 99 else if age = 19 then 105 else 0
    if with_spouse then max 0 (base - 10) else base
  else if age ≤ 29 then (if with_spouse then 100 else 110)
  else
    let decline : List ℤ := [105, 99, 93, 87, 81, 75, 69, 63, 57, 51, 45, 39, 33, 27, 21, 15]
    let idx := min (age - 30) 15
    let pt := decline.getD idx.toNat 0
    if with_spouse then max 0 (pt - 10) else pt

/-- The ordered education table from `_education_points`. -/
def eduLevels : List (String × ℤ × ℤ) :=
  [("secondary", 30, 28), ("one_two_year_diploma", 90, 84), ("two_year_diploma", 98, 91),
   ("bachelors", 120, 112), ("two_or_more", 128, 119), ("masters", 135, 126), ("phd", 150, 140)]

/-- `_education_points`: keyword lookup with fallback matching. -/
def education_points (level : String) (with_spouse : Bool) : ℤ :=
  let key := replaceSpaceUnderscore (strLower (strStrip level))
  match eduLevels.find? (fun kv => strContains key kv.1 || strContains kv.1 key) with
  | some kv => if with_spouse then kv.2.2 else kv.2.1
  | none =>
    if strContains key "bachelor" || strContains key "degree" || strContains key "3" then
      (if with_spouse then 112 else 120)
    else if strContains key "master" || strContains key "masters" then
      (if with_spouse then 126 else 135)
    else if strContains key "phd" || strContains key "doctoral" then
      (if with_spouse then 140 else 150)
    else if strContains key "diploma" || strContains key "1" || strContains key "2" then
      (if with_spouse then 91 else 98)
    else (if with_spouse then 28 else 30)

/-- `_canadian_work_points`. -/
def canadian_work_points (years : ℤ) (with_spouse : Bool) : ℤ :=
  let grid : List (ℤ × ℤ) := [(0, 0), (40, 35), (53, 46), (64, 56), (72, 63), (80, 70)]
  let p := grid.getD (min (max 0 years) 5).toNat (0, 0)
  if with_spouse then p.2 else p.1

/-- The ordered spouse education table from `_spouse_education_points`. -/
def spouseEduLevels : List (String × ℤ) :=
  [("none", 0), ("secondary", 2), ("one_year", 6), ("two_year", 7),
   ("bachelors", 8), ("two_or_more", 9), ("masters", 10), ("phd", 10)]

/-- `_spouse_education_points`. -/
def spouse_education_points (level : String) : ℤ :=
  let key := strLower (strStrip level)
  match spouseEduLevels.find? (fun kv => strContains key kv.1) with
  | some kv => kv.2
  | none => 0

/-- `_spouse_canadian_work_points`. -/
def spouse_canadian_work_points (years : ℤ) : ℤ :=
  ([0, 5, 7, 8, 9, 10] : List ℤ).getD (min (max 0 years) 5).toNat 0

/-- `_spouse_language_points`. -/
def spouse_language_points (clb_min : ℤ) : ℤ :=
  if clb_min ≥ 9 then 5
  else if clb_min ≥ 5 then 1
  else 0

/-- `_transferability_education_language` (the two award tiers are spouse-independent
in the source; the `with_spouse` argument is kept because the source takes it). -/
def transferability_education_language (edu_level : String) (clb_min : ℤ)
    (_with_spouse : Bool) : ℤ :=
  if clb_min ≥ 9 ∧ edu_level ∈ ["masters", "phd", "two_or_more", "bachelors"] then 50
  else if clb_min ≥ 7 ∧ edu_level ∈ ["masters", "phd", "two_or_more", "bachelors"] then 25
  else 0

/-- `_transferability_education_canadian_work`. -/
def transferability_education_canadian_work (edu_level : String) (canadian_years : ℤ)
    (_with_spouse : Bool) : ℤ :=
  if canadian_years ≥ 2 ∧ edu_level ∈ ["masters", "phd", "two_or_more", "bachelors"] then 50
  else if canadian_years ≥ 1 ∧ edu_level ∈ ["masters", "phd", "two_or_more", "bachelors"] then 25
  else 0

/-- `_transferability_foreign_language`. -/
def transferability_foreign_language (foreign_years : ℤ) (clb_min : ℤ) : ℤ :=
  if foreign_years ≥ 3 ∧ clb_min ≥ 9 then 50
  else if foreign_years ≥ 3 ∧ clb_min ≥ 7 then 25
  else if foreign_years ≥ 1 ∧ clb_min ≥ 9 then 25
  else if foreign_years ≥ 1 ∧ clb_min ≥ 7 then 13
  else 0

/-- `_canadian_study_bonus`. -/
def canadian_study_bonus (has_canadian_edu : Bool) (level_detail : String) : ℤ :=
  if ¬ has_canadian_edu then 0
  else
    let ld := strLower level_detail
    if strContains ld "secondary" || strContains ld "1" || strContains ld "2" ||
        strContains ld "one" || strContains ld "two" then 15
    else 30

/-! ## Input and result records (`crs_agent.py` lines 243-308) -/

/-- `CRSInput` (normalized input for CRS computation), with the source's defaults. -/
structure CRSInput where
  age : ℤ := 0
  marital_status : String := "single"
  spouse_accompanying : Bool := false
  spouse_canadian_pr : Bool := false
  education_level : String := ""
  education_level_detail : String := ""
  canadian_education : Bool := false
  language_test : String := "ielts"
  lang_speaking : Option ℚ := none
  lang_listening : Option ℚ := none
  lang_reading : Option ℚ := none
  lang_writing : Option ℚ := none
  has_second_language : Bool := false
  second_lang_speaking : Option ℚ := none
  second_lang_listening : Option ℚ := none
  second_lang_reading : Option ℚ := none
  second_lang_writing : Option ℚ := none
  canadian_work_years : ℤ := 0
  foreign_work_years : ℤ := 0
  certificate_of_qualification : Bool := false
  provincial_nomination : Bool := false
  sibling_in_canada : Bool := false
  spouse_education_level : String := ""
  spouse_canadian_work_years : ℤ := 0
  spouse_lang_speaking : Option ℚ := none
  spouse_lang_listening : Option ℚ := none
  spouse_lang_reading : Option ℚ := none
  spouse_lang_writing : Option ℚ := none
  spouse_language_test : String := "ielts"
deriving DecidableEq

/-- The fixed-key `breakdown` dict built at the end of `compute_crs`. -/
structure CRSBreakdown where
  age : ℤ
  education : ℤ
  first_official_language : ℤ
  canadian_work_experience : ℤ
  spouse_factors : ℤ
  skill_transferability : ℤ
  provincial_nomination : ℤ
  canadian_study_bonus : ℤ
  sibling_in_canada : ℤ
  certificate_of_qualification : ℤ
  second_official_language : ℤ
deriving DecidableEq

/-- `CRSResult` (total plus named subtotals, breakdown and missing-field list). -/
structure CRSResult where
  total : ℤ := 0
  core_human_capital : ℤ := 0
  spouse_factors : ℤ := 0
  skill_transferability : ℤ := 0
  additional_points : ℤ := 0
  breakdown : CRSBreakdown
  missing_or_defaulted : List String := []
deriving DecidableEq

/-- `_normalize_edu_level`. -/
def normalize_edu_level (level : String) : String :=
  let s := strLower (strStrip level)
  if strContains s "phd" || strContains s "doctoral" then "phd"
  else if strContains s "master" || strContains s "masters" then "masters"
  else if strContains s "bachelor" || strContains s "degree" || strContains s "3" then "bachelors"
  else if strContains s "two_or_more" || strContains s "two or more" then "two_or_more"
  else if strContains s "diploma" || strContains s "1" || strContains s "2" then "two_year_diploma"
  else "secondary"

/-! ## `compute_crs` (`crs_agent.py` lines 311-425), split into the named
intermediate values the source binds in order. -/

/-- The `with_spouse` flag computed at the start of `compute_crs`: a first
membership test against the dissolved-status tuple, then the explicit
married/common-law override. -/
def with_spouse_flag (inp : CRSInput) : Bool :=
  (inp.spouse_accompanying &&
    !(["single", "never_married", "divorced", "widowed", "separated", "annulled"].contains
      inp.marital_status))
  || ((["married", "common_law", "common-law"].contains (strLower inp.marital_status)) &&
      inp.spouse_accompanying)

/-- The missing/defaulted markers recorded by `compute_crs`, in source order. -/
def missing_list (inp : CRSInput) : List String :=
  (if inp.age ≤ 0 then ["age"] else []) ++
  (if inp.education_level = "" ∧ inp.education_level_detail = "" then ["education_level"] else []) ++
  (if inp.lang_speaking.isNone ∧ inp.lang_listening.isNone ∧ inp.lang_reading.isNone ∧
      inp.lang_writing.isNone then ["language_scores"] else [])

/-- Python `min(nonempty list)`. -/
def listMin : List ℤ → ℤ
  | [] => 0
  | x :: xs => xs.foldl min x

/-- `min(x for x in levels if x > 0)` guarded by `if any(levels)` — the binding
minimum CLB over the strictly positive skill levels, 0 when all are 0. -/
def pos_min4 (s l r w : ℤ) : ℤ :=
  if s ≠ 0 ∨ l ≠ 0 ∨ r ≠ 0 ∨ w ≠ 0 then listMin ([s, l, r, w].filter (fun x => 0 < x))
  else 0

/-- First-official-language CLB levels of the principal applicant. -/
def first_clbs (inp : CRSInput) : ℤ × ℤ × ℤ × ℤ :=
  clb_from_scores inp.language_test inp.lang_speaking inp.lang_listening inp.lang_reading
    inp.lang_writing

/-- `clb_min` of `compute_crs`. -/
def clb_min_val (inp : CRSInput) : ℤ :=
  pos_min4 (first_clbs inp).1 (first_clbs inp).2.1 (first_clbs inp).2.2.1 (first_clbs inp).2.2.2

/-- `age_pts`. -/
def age_pts_val (inp : CRSInput) : ℤ :=
  if 0 < inp.age then age_points inp.age (with_spouse_flag inp) else 0

/-- `edu_norm`. -/
def edu_norm_val (inp : CRSInput) : String :=
  normalize_edu_level (if inp.education_level ≠ "" then inp.education_level
    else inp.education_level_detail)

/-- `edu_pts`. -/
def edu_pts_val (inp : CRSInput) : ℤ :=
  education_points (edu_norm_val inp) (with_spouse_flag inp)

/-- `lang_pts`: per-skill sum when the binding minimum CLB is positive. -/
def lang_pts_val (inp : CRSInput) : ℤ :=
  if 0 < clb_min_val inp then
    lang_points (first_clbs inp).1 (with_spouse_flag inp) +
    lang_points (first_clbs inp).2.1 (with_spouse_flag inp) +
    lang_points (first_clbs inp).2.2.1 (with_spouse_flag inp) +
    lang_points (first_clbs inp).2.2.2 (with_spouse_flag inp)
  else 0

/-- `cdn_work_pts`. -/
def cdn_work_pts_val (inp : CRSInput) : ℤ :=
  canadian_work_points inp.canadian_work_years (with_spouse_flag inp)

/-- `core` subtotal. -/
def core_val (inp : CRSInput) : ℤ :=
  age_pts_val inp + edu_pts_val inp + lang_pts_val inp + cdn_work_pts_val inp

/-- Spouse CLB levels. -/
def spouse_clbs (inp : CRSInput) : ℤ × ℤ × ℤ × ℤ :=
  clb_from_scores inp.spouse_language_test inp.spouse_lang_speaking inp.spouse_lang_listening
    inp.spouse_lang_reading inp.spouse_lang_writing

/-- `spouse_clb`. -/
def spouse_clb_min (inp : CRSInput) : ℤ :=
  pos_min4 (spouse_clbs inp).1 (spouse_clbs inp).2.1 (spouse_clbs inp).2.2.1
    (spouse_clbs inp).2.2.2

/-- `spouse_pts` subtotal (only awarded with the spouse flag set). -/
def spouse_pts_val (inp : CRSInput) : ℤ :=
  if with_spouse_flag inp then
    spouse_education_points inp.spouse_education_level +
    spouse_canadian_work_points inp.spouse_canadian_work_years +
    spouse_language_points (spouse_clb_min inp)
  else 0

/-- `trans_edu_lang`. -/
def trans_edu_lang_val (inp : CRSInput) : ℤ :=
  transferability_education_language (edu_norm_val inp) (clb_min_val inp) (with_spouse_flag inp)

/-- `trans_edu_work`. -/
def trans_edu_work_val (inp : CRSInput) : ℤ :=
  transferability_education_canadian_work (edu_norm_val inp) inp.canadian_work_years
    (with_spouse_flag inp)

/-- `trans_foreign`. -/
def trans_foreign_val (inp : CRSInput) : ℤ :=
  transferability_foreign_language inp.foreign_work_years (clb_min_val inp)

/-- `transferability`: sum of the three sub-scores, clamped at 100. -/
def transferability_val (inp : CRSInput) : ℤ :=
  min 100 (trans_edu_lang_val inp + trans_edu_work_val inp + trans_foreign_val inp)

/-- Second-language CLB levels (always converted with the IELTS table). -/
def second_clbs (inp : CRSInput) : ℤ × ℤ × ℤ × ℤ :=
  clb_from_scores "ielts" inp.second_lang_speaking inp.second_lang_listening
    inp.second_lang_reading inp.second_lang_writing

/-- `clb2`. -/
def second_clb_min (inp : CRSInput) : ℤ :=
  pos_min4 (second_clbs inp).1 (second_clbs inp).2.1 (second_clbs inp).2.2.1
    (second_clbs inp).2.2.2

/-- `add` subtotal (additional points), in the source's accumulation order. -/
def additional_val (inp : CRSInput) : ℤ :=
  (if inp.provincial_nomination then 600 else 0) +
  canadian_study_bonus inp.canadian_education inp.education_level_detail +
  (if inp.sibling_in_canada then 15 else 0) +
  (if inp.certificate_of_qualification then 50 else 0) +
  (if inp.has_second_language then second_lang_points (second_clb_min inp) else 0)

/-- `total`: the grand sum clamped at 1200. -/
def total_val (inp : CRSInput) : ℤ :=
  min 1200 (core_val inp + spouse_pts_val inp + transferability_val inp + additional_val inp)

/-- Python `min` over a 4-tuple (used by the breakdown's second-language entry,
which, unlike `add`, does not filter out zero levels). -/
def tuple_min4 (t : ℤ × ℤ × ℤ × ℤ) : ℤ :=
  min t.1 (min t.2.1 (min t.2.2.1 t.2.2.2))

/-- The `breakdown` dict of `compute_crs`. -/
def breakdown_val (inp : CRSInput) : CRSBreakdown where
  age := age_pts_val inp
  education := edu_pts_val inp
  first_official_language := lang_pts_val inp
  canadian_work_experience := cdn_work_pts_val inp
  spouse_factors := spouse_pts_val inp
  skill_transferability := transferability_val inp
  provincial_nomination := if inp.provincial_nomination then 600 else 0
  canadian_study_bonus := canadian_study_bonus inp.canadian_education inp.education_level_detail
  sibling_in_canada := if inp.sibling_in_canada then 15 else 0
  certificate_of_qualification := if inp.certificate_of_qualification then 50 else 0
  second_official_language :=
    if inp.has_second_language ∧ 5 ≤ tuple_min4 (second_clbs inp) then 6 else 0

/-- `compute_crs`: the deterministic scoring engine. -/
def compute_crs (inp : CRSInput) : CRSResult where
  total := total_val inp
  core_human_capital := core_val inp
  spouse_factors := spouse_pts_val inp
  skill_transferability := transferability_val inp
  additional_points := additional_val inp
  breakdown := breakdown_val inp
  missing_or_defaulted := missing_list inp

/-! ## Concrete profiles used in the claims -/

/-- Scenario A of the spec: age 30, single, bachelor's, IELTS speaking 7.5 /
listening 8.0 / reading 8.5 / writing 7.0, two years of Canadian work, three
years of foreign work, no spouse and no additional factors. -/
def scenarioA : CRSInput where
  age := 30
  marital_status := "single"
  education_level := "bachelors"
  language_test := "ielts"
  lang_speaking := some band7_5
  lang_listening := some 8
  lang_reading := some band8_5
  lang_writing := some 7
  canadian_work_years := 2
  foreign_work_years := 3


/-- The `CRSInput` with marital status "engaged" and an accompanying spouse,
used to probe the `with_spouse` flag. -/
def engagedProfile : CRSInput where
  marital_status := "engaged"
  spouse_accompanying := true

/-- The spec's notion "marital status is married or common-law", as the
lower-cased membership test the source uses in its second condition. -/
def married_or_common_law (s : String) : Bool :=
  ["married", "common_law", "common-law"].contains (strLower s)

/-! ## Integerized step functions (proof helpers for the converters)

`ielts_to_clb` compares a rational against half-integer thresholds, so it
factors through `⌈2 s⌉`; `pte_to_clb` compares against integer thresholds,
so it factors through `⌊v⌋`.  These integer step functions carry the
monotonicity and range arguments. -/

/-- `ielts_to_clb` on `⌈2 s⌉`. -/
def ieltsStep (n : ℤ) : ℤ :=
  if n ≤ 6 then 4
  else if n ≤ 7 then 4
  else if n ≤ 8 then 5
  else if n ≤ 9 then 5
  else if n ≤ 10 then 6
  else if n ≤ 11 then 6
  else if n ≤ 12 then 7
  else if n ≤ 13 then 8
  else if n ≤ 14 then 9
  else if n ≤ 15 then 9
  else if n ≤ 16 then 10
  else if n ≤ 17 then 10
  else 12

/-- `pte_to_clb` on `⌊v⌋`. -/
def pteStep (n : ℤ) : ℤ :=
  if n < 36 then 4
  else if n < 47 then 5
  else if n < 55 then 6
  else if n < 63 then 7
  else if n < 75 then 8
  else if n < 83 then 9
  else 10

/-! ## Rule checker (`crs_rule_checker.py`)

The official-rules summary extracted by the LLM is a JSON object whose
values are numbers or strings; Python's `!=` across those types is exact
inequality within a type and always-true across types, which is what the
`RuleVal` sum type provides. -/

/-- A JSON scalar in the rules summary: a number or a string. -/
inductive RuleVal where
  | intVal (n : ℤ)
  | strVal (s : String)
deriving DecidableEq

/-- Python string interpolation of a rule value. -/
def ruleValStr : RuleVal → String
  | .intVal n => toString n
  | .strVal s => s

/-- An extracted official-rules summary: key/value entries plus the
`recent_changes` list (absent key modelled as the empty list). -/
structure OfficialRules where
  entries : List (String × RuleVal)
  recent_changes : List String
deriving DecidableEq

/-- Python `official.get(key)`. -/
def officialGet (off : OfficialRules) (key : String) : Option RuleVal :=
  (off.entries.find? (fun kv => kv.1 == key)).map (fun kv => kv.2)

/-- `KNOWN_CRS_RULES_SIGNATURE`, in the source dict's insertion order. -/
def KNOWN_CRS_RULES_SIGNATURE : List (String × RuleVal) :=
  [("job_offer_points", .strVal "removed_2025_03_25"),
   ("max_points", .intVal 1200),
   ("core_max_single", .intVal 500),
   ("core_max_spouse", .intVal 460),
   ("age_max_single", .intVal 110),
   ("age_max_spouse", .intVal 100),
   ("education_max_single", .intVal 150),
   ("education_max_spouse", .intVal 140),
   ("language_max_single", .intVal 160),
   ("language_max_spouse", .intVal 150),
   ("canadian_work_max_single", .intVal 80),
   ("canadian_work_max_spouse", .intVal 70),
   ("provincial_nomination", .intVal 600),
   ("canadian_study_1_2yr", .intVal 15),
   ("canadian_study_3plus", .intVal 30),
   ("sibling", .intVal 15),
   ("certificate_qualification", .intVal 50),
   ("second_language", .intVal 6)]

/-- One iteration of the key-comparison loop in `_compare_rules`: the list of
change messages contributed by one signature key (empty or a singleton). -/
def keyChange (off : OfficialRules) (kv : String × RuleVal) : List String :=
  match officialGet off kv.1 with
  | none => []
  | some ov =>
    if kv.1 = "job_offer_points" then
      if kv.2 = .strVal "removed_2025_03_25" then
        if ov ∈ [RuleVal.strVal "removed", .intVal 0, .strVal "0",
                 .strVal "removed_2025_03_25"] then []
        else [kv.1 ++ ": hardcoded=removed, official=" ++ ruleValStr ov]
      else if kv.2 ≠ ov then
        [kv.1 ++ ": hardcoded=" ++ ruleValStr kv.2 ++ ", official=" ++ ruleValStr ov]
      else []
    else if kv.2 ≠ ov then
      [kv.1 ++ ": hardcoded=" ++ ruleValStr kv.2 ++ ", official=" ++ ruleValStr ov]
    else []

/-- The recency filter applied to the reported `recent_changes`: entries about
the job-offer removal are dropped once the removal is at least 6 months old. -/
def filterRecent (monthsSinceRemoval : ℤ) (rc : List String) : List String :=
  rc.filter (fun change =>
    let cl := strLower change
    !(strContains cl "job offer" &&
      (strContains cl "removed" || strContains cl "removal") &&
      decide (monthsSinceRemoval ≥ 6)))

/-- `_compare_rules`: `(match, changes_detected)`.  With no official summary
it reports a match with no changes. -/
def compare_rules (official : Option OfficialRules) (monthsSinceRemoval : ℤ) :
    Bool × List String :=
  match official with
  | none => (true, [])
  | some off =>
    let changes := KNOWN_CRS_RULES_SIGNATURE.foldr (fun kv acc => keyChange off kv ++ acc) []
    let changes :=
      if off.recent_changes ≠ [] then
        let filtered := filterRecent monthsSinceRemoval off.recent_changes
        if filtered ≠ [] then
          changes ++ ["Recent changes reported: " ++ String.intercalate ", " filtered]
        else changes
      else changes
    (changes.isEmpty, changes)

/-- `CRSRuleCheckResult`. -/
structure CRSRuleCheckResult where
  rules_match : Bool
  use_hardcoded : Bool
  changes_detected : List String
  official_rules_summary : Option OfficialRules
  last_checked : ℤ
  error : Option String := none
deriving DecidableEq, Inhabited

/-- Environment of one `check_crs_rules` call: the fetched page (if any), the
LLM-extracted summary (if any), the month distance from the job-offer removal,
the current time, and an internal exception raised inside the `try` body
(if any). -/
structure RuleCheckEnv where
  page_content : Option String
  extracted : Option OfficialRules
  monthsSinceRemoval : ℤ
  now : ℤ
  internal_error : Option String
deriving DecidableEq

/-- `check_crs_rules`: the whole body is inside `try`; an internal exception
produces the benefit-of-the-doubt result carrying the error text. -/
def check_crs_rules (env : RuleCheckEnv) : CRSRuleCheckResult :=
  match env.internal_error with
  | some e =>
    { rules_match := true, use_hardcoded := true, changes_detected := [],
      official_rules_summary := none, last_checked := env.now, error := some e }
  | none =>
    let official := env.extracted
    let rm := compare_rules official env.monthsSinceRemoval
    { rules_match := rm.1, use_hardcoded := rm.1, changes_detected := rm.2,
      official_rules_summary := official, last_checked := env.now, error := none }

/-- A rule-check environment where neither the fetch nor the extraction
produced official data. -/
def envFetchFail : RuleCheckEnv where
  page_content := none
  extracted := none
  monthsSinceRemoval := 7
  now := 0
  internal_error := none

/-- A rule-check environment whose `try` body raises. -/
def envInternalError : RuleCheckEnv where
  page_content := none
  extracted := none
  monthsSinceRemoval := 7
  now := 0
  internal_error := some "unexpected"

/-! ## Dynamic method selector (`crs_dynamic.py` lines 52-138) -/

/-- Environment of one `compute_crs` call in `crs_dynamic.py`: whether
`_get_rule_check` raises and what it returns otherwise, and whether
`compute_crs_with_ai` raises and what it returns otherwise. -/
structure DynEnv where
  rule_check_raises : Bool
  rule_check : CRSRuleCheckResult
  ai_raises : Bool
  ai_error : String
  ai_result : CRSResult
deriving DecidableEq

/-- `Except.ok`-ness of a selector outcome. -/
def exceptIsOk : Except String (CRSResult × Option String) → Bool
  | .ok _ => true
  | .error _ => false

/-- The dynamic `compute_crs` of `crs_dynamic.py`.  The returned pair carries
the result together with the `calculation_method` tag the function writes
into the breakdown (`none` on the forced-AI path, which writes no tag);
`Except.error` models an exception propagating to the caller. -/
def dynamic_compute_crs (env : DynEnv) (inp : CRSInput)
    (_force_rule_check force_ai_calculation force_hardcoded : Bool) :
    Except String (CRSResult × Option String) :=
  if force_hardcoded then
    .ok (compute_crs inp, some "hardcoded_forced")
  else if force_ai_calculation then
    if env.ai_raises then .error env.ai_error
    else .ok (env.ai_result, none)
  else if env.rule_check_raises then
    .ok (compute_crs inp, some "hardcoded_error_fallback")
  else
    let rc := env.rule_check
    if rc.use_hardcoded || rc.changes_detected.isEmpty then
      .ok (compute_crs inp, some "hardcoded")
    else if (rc.error.isSome || !rc.rules_match) && rc.changes_detected.isEmpty then
      .ok (compute_crs inp, some "hardcoded_fallback")
    else if env.ai_raises then
      .ok ({ compute_crs inp with
             missing_or_defaulted :=
               (compute_crs inp).missing_or_defaulted ++ ["ai_calculation_failed"] },
           some "hardcoded_fallback")
    else
      .ok (env.ai_result, some "ai_based")

/-- A selector environment where the alternate (AI) computation capability is
unavailable, so `compute_crs_with_ai` raises. -/
def dynEnvAIDown : DynEnv where
  rule_check_raises := false
  rule_check := check_crs_rules envFetchFail
  ai_raises := true
  ai_error := "CrewAI not available. Cannot use AI-based CRS calculator."
  ai_result := compute_crs {}

/-! ## Rule-check cache (`crs_dynamic.py` lines 24-49) -/

/-- `CACHE_DURATION` (one hour), in seconds. -/
def CACHE_DURATION : ℤ := 3600

/-- The module-level cache pair `(_rule_check_cache, _cache_timestamp)`. -/
structure CacheState where
  rule_check_cache : Option CRSRuleCheckResult
  cache_timestamp : Option ℤ
deriving DecidableEq

/-- `_should_refresh_cache`. -/
def should_refresh_cache (st : CacheState) (now : ℤ) (force_check : Bool) : Bool :=
  if force_check then true
  else if st.rule_check_cache.isNone || st.cache_timestamp.isNone then true
  else
    match st.cache_timestamp with
    | some ts => decide (now - ts > CACHE_DURATION)
    | none => true

/-- `_get_rule_check`, with the Monitor `check_crs_rules` abstracted as a
function of the call time; returns the verdict, the new cache state, and how
many times the Monitor was invoked (0 or 1). -/
def get_rule_check (monitor : ℤ → CRSRuleCheckResult) (st : CacheState) (now : ℤ)
    (force_check : Bool) : CRSRuleCheckResult × CacheState × ℕ :=
  if should_refresh_cache st now force_check then
    (monitor now, ⟨some (monitor now), some now⟩, 1)
  else
    (st.rule_check_cache.getD default, st, 0)

/-- A monitor that always runs against `envFetchFail` at the call time. -/
def constMonitor : ℤ → CRSRuleCheckResult :=
  fun t => check_crs_rules { page_content := none, extracted := none,
                             monthsSinceRemoval := 7, now := t, internal_error := none }

/-- The empty cache (module load state). -/
def emptyCache : CacheState := ⟨none, none⟩

/-! # Theorems

First the characterizations of the score converters through integer step
functions, then the claim theorems C1-C10 with their helper lemmas. -/

theorem le_half_iff (s : ℚ) (k : ℤ) (c : ℚ) (hc : c = (k : ℚ) / 2) :
    s ≤ c ↔ ⌈2 * s⌉ ≤ k := by
  subst hc
  rw [Int.ceil_le]
  constructor <;> intro h <;> linarith

theorem lt_int_iff (v : ℚ) (k : ℤ) (c : ℚ) (hc : c = (k : ℚ)) :
    v < c ↔ ⌊v⌋ < k := by
  subst hc
  exact Int.floor_lt.symm

theorem band3_5_eq : band3_5 = 7 / 2 := by
  rw [band3_5, Rat.mk'_eq_divInt, Rat.divInt_eq_div]; norm_num

theorem band4_5_eq : band4_5 = 9 / 2 := by
  rw [band4_5, Rat.mk'_eq_divInt, Rat.divInt_eq_div]; norm_num

theorem band5_5_eq : band5_5 = 11 / 2 := by
  rw [band5_5, Rat.mk'_eq_divInt, Rat.divInt_eq_div]; norm_num

theorem band6_5_eq : band6_5 = 13 / 2 := by
  rw [band6_5, Rat.mk'_eq_divInt, Rat.divInt_eq_div]; norm_num

theorem band7_5_eq : band7_5 = 15 / 2 := by
  rw [band7_5, Rat.mk'_eq_divInt, Rat.divInt_eq_div]; norm_num

theorem band8_5_eq : band8_5 = 17 / 2 := by
  rw [band8_5, Rat.mk'_eq_divInt, Rat.divInt_eq_div]; norm_num

theorem ielts_eq_step (s : ℚ) : ielts_to_clb (some s) = ieltsStep ⌈2 * s⌉ := by
  unfold ielts_to_clb ieltsStep
  dsimp only
  simp only [le_half_iff s 6 3 (by norm_num), le_half_iff s 7 band3_5 (by rw [band3_5_eq]; norm_num),
    le_half_iff s 8 4 (by norm_num), le_half_iff s 9 band4_5 (by rw [band4_5_eq]; norm_num),
    le_half_iff s 10 5 (by norm_num), le_half_iff s 11 band5_5 (by rw [band5_5_eq]; norm_num),
    le_half_iff s 12 6 (by norm_num), le_half_iff s 13 band6_5 (by rw [band6_5_eq]; norm_num),
    le_half_iff s 14 7 (by norm_num), le_half_iff s 15 band7_5 (by rw [band7_5_eq]; norm_num),
    le_half_iff s 16 8 (by norm_num), le_half_iff s 17 band8_5 (by rw [band8_5_eq]; norm_num)]

theorem pte_eq_step (v : ℚ) : pte_to_clb (some v) = pteStep ⌊v⌋ := by
  unfold pte_to_clb pteStep
  dsimp only
  simp only [lt_int_iff v 36 36 (by norm_num), lt_int_iff v 47 47 (by norm_num),
    lt_int_iff v 55 55 (by norm_num), lt_int_iff v 63 63 (by norm_num),
    lt_int_iff v 75 75 (by norm_num), lt_int_iff v 83 83 (by norm_num)]

theorem ieltsStep_mono {m n : ℤ} (h : m ≤ n) : ieltsStep m ≤ ieltsStep n := by
  unfold ieltsStep
  omega

theorem ieltsStep_range (n : ℤ) : 4 ≤ ieltsStep n ∧ ieltsStep n ≤ 12 := by
  unfold ieltsStep
  omega

theorem pteStep_mono {m n : ℤ} (h : m ≤ n) : pteStep m ≤ pteStep n := by
  unfold pteStep
  omega

theorem pteStep_range (n : ℤ) : 4 ≤ pteStep n ∧ pteStep n ≤ 10 := by
  unfold pteStep
  omega

theorem truncToZero_of_nonneg {q : ℚ} (h : 0 ≤ q) : truncToZero q = ⌊q⌋ := by
  rw [truncToZero, Rat.floor_def]
  exact Int.tdiv_eq_ediv (Rat.num_nonneg.mpr h) (by positivity)

theorem truncToZero_of_neg {q : ℚ} (h : q < 0) : truncToZero q = ⌈q⌉ := by
  rw [truncToZero]
  have hnum : q.num = -(-q).num := by rw [Rat.neg_num]; ring
  rw [hnum, Int.neg_tdiv]
  have hden : (q.den : ℤ) = ((-q).den : ℤ) := by rw [Rat.neg_den]
  rw [hden]
  have hfloor : (-q).num.tdiv (-q).den = ⌊-q⌋ := by
    rw [Rat.floor_def]
    exact Int.tdiv_eq_ediv (Rat.num_nonneg.mpr (by linarith)) (by positivity)
  rw [hfloor, ← Int.ceil_neg, neg_neg]

theorem truncToZero_mono {a b : ℚ} (h : a ≤ b) : truncToZero a ≤ truncToZero b := by
  rcases le_or_lt 0 a with ha | ha
  · rw [truncToZero_of_nonneg ha, truncToZero_of_nonneg (le_trans ha h)]
    exact Int.floor_le_floor h
  · rcases le_or_lt 0 b with hb | hb
    · rw [truncToZero_of_neg ha, truncToZero_of_nonneg hb]
      have h1 : ⌈a⌉ ≤ 0 := Int.ceil_le.mpr (by exact_mod_cast ha.le)
      have h2 : (0 : ℤ) ≤ ⌊b⌋ := Int.floor_nonneg.mpr hb
      omega
    · rw [truncToZero_of_neg ha, truncToZero_of_neg hb]
      exact Int.ceil_le_ceil h

theorem truncToZero_le_of_lt_13 {b : ℚ} (h : b < 13) : truncToZero b ≤ 12 := by
  rcases le_or_lt 0 b with hb | hb
  · rw [truncToZero_of_nonneg hb]
    have : ⌊b⌋ < (13 : ℤ) := Int.floor_lt.mpr (by exact_mod_cast h)
    omega
  · rw [truncToZero_of_neg hb]
    have : ⌈b⌉ ≤ 0 := Int.ceil_le.mpr (by exact_mod_cast hb.le)
    omega

theorem ielts_to_clb_mono {a b : ℚ} (hab : a ≤ b) :
    ielts_to_clb (some a) ≤ ielts_to_clb (some b) := by
  rw [ielts_eq_step, ielts_eq_step]
  exact ieltsStep_mono (Int.ceil_le_ceil (by linarith))

theorem pte_to_clb_mono {a b : ℚ} (hab : a ≤ b) :
    pte_to_clb (some a) ≤ pte_to_clb (some b) := by
  rw [pte_eq_step, pte_eq_step]
  exact pteStep_mono (Int.floor_le_floor hab)

theorem celpip_to_clb_eval (s : ℚ) :
    celpip_to_clb (some s) =
      if 1 ≤ truncToZero s ∧ truncToZero s ≤ 12 then truncToZero s else 0 := rfl

theorem celpip_to_clb_mono {a b : ℚ} (hab : a ≤ b) (hb : b < 13) :
    celpip_to_clb (some a) ≤ celpip_to_clb (some b) := by
  rw [celpip_to_clb_eval, celpip_to_clb_eval]
  have hm := truncToZero_mono hab
  have h12 := truncToZero_le_of_lt_13 hb
  split_ifs <;> omega

theorem ielts_to_clb_range (q : Option ℚ) :
    ielts_to_clb q = 0 ∨ (4 ≤ ielts_to_clb q ∧ ielts_to_clb q ≤ 12) := by
  cases q with
  | none => left; rfl
  | some s => right; rw [ielts_eq_step]; exact ieltsStep_range _

theorem pte_to_clb_range (q : Option ℚ) :
    pte_to_clb q = 0 ∨ (4 ≤ pte_to_clb q ∧ pte_to_clb q ≤ 12) := by
  cases q with
  | none => left; rfl
  | some s =>
    right
    rw [pte_eq_step]
    rcases pteStep_range ⌊s⌋ with ⟨h1, h2⟩
    exact ⟨h1, by omega⟩

theorem celpip_to_clb_range (q : Option ℚ) :
    celpip_to_clb q = 0 ∨ (1 ≤ celpip_to_clb q ∧ celpip_to_clb q ≤ 12) := by
  cases q with
  | none => left; rfl
  | some s =>
    rw [celpip_to_clb_eval]
    split_ifs with h
    · right; exact h
    · left; rfl

theorem ielts_to_clb_nonneg (q : Option ℚ) : 0 ≤ ielts_to_clb q := by
  rcases ielts_to_clb_range q with h | ⟨h, _⟩ <;> omega

theorem celpip_to_clb_nonneg (q : Option ℚ) : 0 ≤ celpip_to_clb q := by
  rcases celpip_to_clb_range q with h | ⟨h, _⟩ <;> omega

theorem pte_to_clb_nonneg (q : Option ℚ) : 0 ≤ pte_to_clb q := by
  rcases pte_to_clb_range q with h | ⟨h, _⟩ <;> omega

theorem clb_from_scores_nonneg (t : String) (sp li re wr : Option ℚ) :
    0 ≤ (clb_from_scores t sp li re wr).1 ∧ 0 ≤ (clb_from_scores t sp li re wr).2.1 ∧
    0 ≤ (clb_from_scores t sp li re wr).2.2.1 ∧ 0 ≤ (clb_from_scores t sp li re wr).2.2.2 := by
  unfold clb_from_scores
  split_ifs <;>
    exact ⟨by first | exact celpip_to_clb_nonneg _ | exact pte_to_clb_nonneg _
                    | exact ielts_to_clb_nonneg _,
           by first | exact celpip_to_clb_nonneg _ | exact pte_to_clb_nonneg _
                    | exact ielts_to_clb_nonneg _,
           by first | exact celpip_to_clb_nonneg _ | exact pte_to_clb_nonneg _
                    | exact ielts_to_clb_nonneg _,
           by first | exact celpip_to_clb_nonneg _ | exact pte_to_clb_nonneg _
                    | exact ielts_to_clb_nonneg _⟩

theorem getD_int_nonneg (l : List ℤ) (h : ∀ x ∈ l, 0 ≤ x) (n : ℕ) : 0 ≤ l.getD n 0 := by
  induction l generalizing n with
  | nil => simp [List.getD]
  | cons a t ih =>
    cases n with
    | zero => simpa using h a (by simp)
    | succ m => simpa using ih (fun x hx => h x (by simp [hx])) m

theorem getD_pair_nonneg (l : List (ℤ × ℤ)) (h : ∀ x ∈ l, 0 ≤ x.1 ∧ 0 ≤ x.2) (n : ℕ) :
    0 ≤ (l.getD n (0, 0)).1 ∧ 0 ≤ (l.getD n (0, 0)).2 := by
  induction l generalizing n with
  | nil => simp [List.getD]
  | cons a t ih =>
    cases n with
    | zero => simpa using h a (by simp)
    | succ m => simpa using ih (fun x hx => h x (by simp [hx])) m

theorem lang_points_nonneg (clb : ℤ) (ws : Bool) : 0 ≤ lang_points clb ws := by
  simp only [lang_points]
  cases ws <;>
    simp only [Bool.false_eq_true, if_false, if_true, apply_ite (Prod.fst : ℤ × ℤ → ℤ),
      apply_ite (Prod.snd : ℤ × ℤ → ℤ)] <;>
    omega

theorem second_lang_points_nonneg (c : ℤ) : 0 ≤ second_lang_points c := by
  simp only [second_lang_points]; split_ifs <;> norm_num

theorem age_points_nonneg (age : ℤ) (ws : Bool) : 0 ≤ age_points age ws := by
  simp only [age_points]
  have hd : ∀ x ∈ ([105, 99, 93, 87, 81, 75, 69, 63, 57, 51, 45, 39, 33, 27, 21, 15] : List ℤ),
      0 ≤ x := by decide
  split_ifs <;>
    first
      | exact le_max_left 0 _
      | exact getD_int_nonneg _ hd _
      | norm_num

theorem education_points_nonneg (level : String) (ws : Bool) : 0 ≤ education_points level ws := by
  simp only [education_points]
  split
  · next kv hf =>
    have hm := List.mem_of_find?_eq_some hf
    have hn : ∀ x ∈ eduLevels, 0 ≤ x.2.1 ∧ 0 ≤ x.2.2 := by decide
    rcases hn kv hm with ⟨h1, h2⟩
    cases ws <;> simpa
  · split_ifs <;> norm_num

theorem canadian_work_points_nonneg (years : ℤ) (ws : Bool) :
    0 ≤ canadian_work_points years ws := by
  simp only [canadian_work_points]
  have hg : ∀ x ∈ ([(0, 0), (40, 35), (53, 46), (64, 56), (72, 63), (80, 70)] : List (ℤ × ℤ)),
      0 ≤ x.1 ∧ 0 ≤ x.2 := by decide
  rcases getD_pair_nonneg _ hg (min (max 0 years) 5).toNat with ⟨h1, h2⟩
  by_cases hws : ws = true
  · rw [if_pos hws]; exact h2
  · rw [if_neg hws]; exact h1

theorem spouse_education_points_nonneg (level : String) :
    0 ≤ spouse_education_points level := by
  simp only [spouse_education_points]
  split
  · next kv hf =>
    have hm := List.mem_of_find?_eq_some hf
    have hn : ∀ x ∈ spouseEduLevels, 0 ≤ x.2 := by decide
    exact hn kv hm
  · norm_num

theorem spouse_canadian_work_points_nonneg (years : ℤ) :
    0 ≤ spouse_canadian_work_points years := by
  simp only [spouse_canadian_work_points]
  exact getD_int_nonneg _ (by decide) _

theorem spouse_language_points_nonneg (c : ℤ) : 0 ≤ spouse_language_points c := by
  simp only [spouse_language_points]; split_ifs <;> norm_num

theorem transferability_education_language_nonneg (e : String) (c : ℤ) (ws : Bool) :
    0 ≤ transferability_education_language e c ws := by
  simp only [transferability_education_language]; split_ifs <;> norm_num

theorem transferability_education_canadian_work_nonneg (e : String) (y : ℤ) (ws : Bool) :
    0 ≤ transferability_education_canadian_work e y ws := by
  simp only [transferability_education_canadian_work]; split_ifs <;> norm_num

theorem transferability_foreign_language_nonneg (y c : ℤ) :
    0 ≤ transferability_foreign_language y c := by
  simp only [transferability_foreign_language]; split_ifs <;> norm_num

theorem canadian_study_bonus_nonneg (b : Bool) (s : String) :
    0 ≤ canadian_study_bonus b s := by
  simp only [canadian_study_bonus]; split_ifs <;> norm_num

theorem age_pts_val_nonneg (inp : CRSInput) : 0 ≤ age_pts_val inp := by
  unfold age_pts_val
  split_ifs
  · exact age_points_nonneg _ _
  · exact le_refl 0

theorem lang_pts_val_nonneg (inp : CRSInput) : 0 ≤ lang_pts_val inp := by
  unfold lang_pts_val
  split_ifs
  · exact add_nonneg (add_nonneg (add_nonneg (lang_points_nonneg _ _)
      (lang_points_nonneg _ _)) (lang_points_nonneg _ _)) (lang_points_nonneg _ _)
  · exact le_refl 0

theorem core_val_nonneg (inp : CRSInput) : 0 ≤ core_val inp :=
  add_nonneg (add_nonneg (add_nonneg (age_pts_val_nonneg inp)
    (education_points_nonneg _ _)) (lang_pts_val_nonneg inp))
    (canadian_work_points_nonneg _ _)

theorem spouse_pts_val_nonneg (inp : CRSInput) : 0 ≤ spouse_pts_val inp := by
  unfold spouse_pts_val
  split_ifs
  · exact add_nonneg (add_nonneg (spouse_education_points_nonneg _)
      (spouse_canadian_work_points_nonneg _)) (spouse_language_points_nonneg _)
  · exact le_refl 0

theorem trans_sum_nonneg (inp : CRSInput) :
    0 ≤ trans_edu_lang_val inp + trans_edu_work_val inp + trans_foreign_val inp :=
  add_nonneg (add_nonneg (transferability_education_language_nonneg _ _ _)
    (transferability_education_canadian_work_nonneg _ _ _))
    (transferability_foreign_language_nonneg _ _)

theorem transferability_val_nonneg (inp : CRSInput) : 0 ≤ transferability_val inp :=
  le_min (by norm_num) (trans_sum_nonneg inp)

theorem transferability_val_le (inp : CRSInput) : transferability_val inp ≤ 100 :=
  min_le_left _ _

theorem additional_val_nonneg (inp : CRSInput) : 0 ≤ additional_val inp := by
  unfold additional_val
  have h1 : 0 ≤ (if inp.provincial_nomination then (600 : ℤ) else 0) := by split_ifs <;> norm_num
  have h2 := canadian_study_bonus_nonneg inp.canadian_education inp.education_level_detail
  have h3 : 0 ≤ (if inp.sibling_in_canada then (15 : ℤ) else 0) := by split_ifs <;> norm_num
  have h4 : 0 ≤ (if inp.certificate_of_qualification then (50 : ℤ) else 0) := by
    split_ifs <;> norm_num
  have h5 : 0 ≤ (if inp.has_second_language then second_lang_points (second_clb_min inp)
      else 0) := by
    split_ifs
    · exact second_lang_points_nonneg _
    · exact le_refl 0
  linarith

theorem grand_sum_nonneg (inp : CRSInput) :
    0 ≤ core_val inp + spouse_pts_val inp + transferability_val inp + additional_val inp :=
  add_nonneg (add_nonneg (add_nonneg (core_val_nonneg inp) (spouse_pts_val_nonneg inp))
    (transferability_val_nonneg inp)) (additional_val_nonneg inp)

/-- C3: for every input to the deterministic scoring engine, the returned
total lies in [0, 1200] and the returned skill transferability in [0, 100]. -/
theorem C3_score_bounds (inp : CRSInput) :
    0 ≤ (compute_crs inp).total ∧ (compute_crs inp).total ≤ 1200 ∧
    0 ≤ (compute_crs inp).skill_transferability ∧
    (compute_crs inp).skill_transferability ≤ 100 := by
  refine ⟨?_, ?_, transferability_val_nonneg inp, transferability_val_le inp⟩
  · exact le_min (by norm_num) (grand_sum_nonneg inp)
  · exact min_le_left _ _

/-- C8: for every input, the stored total equals the clamp to [0, 1200] of the
sum of the four stored subtotals, and the stored skill transferability is the
sum of the three transferability sub-scores independently clamped to 100. -/
theorem C8_total_is_clamped_subtotal_sum (inp : CRSInput) :
    (compute_crs inp).total =
      max 0 (min 1200 ((compute_crs inp).core_human_capital + (compute_crs inp).spouse_factors +
        (compute_crs inp).skill_transferability + (compute_crs inp).additional_points)) ∧
    (compute_crs inp).skill_transferability =
      min 100 (trans_edu_lang_val inp + trans_edu_work_val inp + trans_foreign_val inp) := by
  constructor
  · show total_val inp = max 0 (min 1200 (core_val inp + spouse_pts_val inp +
      transferability_val inp + additional_val inp))
    rw [total_val]
    exact (max_eq_right (le_min (by norm_num) (grand_sum_nonneg inp))).symm
  · rfl

/-- C1: on the Scenario A profile (age 30, single, bachelor's, IELTS 7.5 /
8.0 / 8.5 / 7.0, two years Canadian work, three years foreign work, no spouse
and no additional factors), `compute_crs` awards 105 age points, 120 education
points, 130 first-language points and 53 Canadian-work points, for a
core-human-capital subtotal of 408; the transferability sub-scores 50 + 50 + 50
clamp to a stored 100; spouse factors and additional points are 0; the total
is 508. -/
theorem C1_scenario_a :
    (compute_crs scenarioA).breakdown.age = 105 ∧
    (compute_crs scenarioA).breakdown.education = 120 ∧
    (compute_crs scenarioA).breakdown.first_official_language = 130 ∧
    (compute_crs scenarioA).breakdown.canadian_work_experience = 53 ∧
    (compute_crs scenarioA).core_human_capital = 408 ∧
    trans_edu_lang_val scenarioA = 50 ∧
    trans_edu_work_val scenarioA = 50 ∧
    trans_foreign_val scenarioA = 50 ∧
    (compute_crs scenarioA).skill_transferability = 100 ∧
    (compute_crs scenarioA).spouse_factors = 0 ∧
    (compute_crs scenarioA).additional_points = 0 ∧
    (compute_crs scenarioA).total = 508 := by
  decide

/-- C4 counterexample: with marital status "engaged" and an accompanying
spouse, the engine's `with_spouse` flag is true even though the status is not
married or common-law, so the flag is not "spouse-accompanying AND
married-or-common-law". -/
theorem C4_counterexample :
    ¬ (with_spouse_flag engagedProfile =
        (engagedProfile.spouse_accompanying &&
          married_or_common_law engagedProfile.marital_status)) := by
  decide

/-- C4 amended: the `with_spouse` flag equals spouse-accompanying AND (the
marital status is not one of the six dissolved/single statuses OR its
lower-casing is married/common-law); and whenever the flag is false the
returned spouse-factors subtotal is exactly 0. -/
theorem C4_amended (inp : CRSInput) :
    (with_spouse_flag inp =
      (inp.spouse_accompanying &&
        (!(["single", "never_married", "divorced", "widowed", "separated", "annulled"].contains
            inp.marital_status)
          || married_or_common_law inp.marital_status))) ∧
    (with_spouse_flag inp = false → (compute_crs inp).spouse_factors = 0) := by
  constructor
  · unfold with_spouse_flag married_or_common_law
    cases inp.spouse_accompanying <;>
      cases (["single", "never_married", "divorced", "widowed", "separated", "annulled"].contains
        inp.marital_status) <;>
      cases (["married", "common_law", "common-law"].contains (strLower inp.marital_status)) <;>
      rfl
  · intro h
    show spouse_pts_val inp = 0
    unfold spouse_pts_val
    rw [if_neg]
    simp [h]

theorem C4_amended_witness :
    with_spouse_flag {} = false ∧ (compute_crs ({} : CRSInput)).spouse_factors = 0 :=
  ⟨by decide, (C4_amended {}).2 (by decide)⟩

/-- C5 counterexample: "toefl" is not one of the supported test families
(its lower-casing contains neither "celpip" nor "pte" nor "ielts"), yet the
converter does not return level 0: it applies the IELTS conversion, mapping
score 5 to level 6 on every skill. -/
theorem C5_counterexample :
    strContains (strLower "toefl") "celpip" = false ∧
    strContains (strLower "toefl") "pte" = false ∧
    strContains (strLower "toefl") "ielts" = false ∧
    clb_from_scores "toefl" (some 5) (some 5) (some 5) (some 5) = (6, 6, 6, 6) ∧
    ¬ (clb_from_scores "toefl" (some 5) (some 5) (some 5) (some 5) = (0, 0, 0, 0)) := by
  decide

/-- C5 amended: for every test type that is not recognized as the CELPIP or
PTE family (by case-insensitive substring match), the converter falls through
to the 9-band IELTS conversion on all four skills; level 0 arises only from
absent scores. -/
theorem C5_amended (t : String) (sp li re wr : Option ℚ)
    (hc : ¬ (t ≠ "" ∧ strContains (strLower t) "celpip" = true))
    (hp : ¬ (t ≠ "" ∧ strContains (strLower t) "pte" = true)) :
    clb_from_scores t sp li re wr =
      (ielts_to_clb sp, ielts_to_clb li, ielts_to_clb re, ielts_to_clb wr) := by
  unfold clb_from_scores
  rw [if_neg, if_neg]
  · exact hp
  · exact hc

theorem C5_amended_witness :
    (¬ (("toefl" : String) ≠ "" ∧ strContains (strLower "toefl") "celpip" = true)) ∧
    (¬ (("toefl" : String) ≠ "" ∧ strContains (strLower "toefl") "pte" = true)) ∧
    clb_from_scores "toefl" (some 5) none none none =
      (ielts_to_clb (some 5), ielts_to_clb none, ielts_to_clb none, ielts_to_clb none) :=
  ⟨by decide, by decide, C5_amended "toefl" (some 5) none none none (by decide) (by decide)⟩

/-- C6 counterexample: the CELPIP conversion is not monotonic at the upper
boundary (score 12 maps to level 12 but score 13 maps to level 0), and its
value at score 2 is the level 2, which is neither 0 nor in 4-12. -/
theorem C6_counterexample :
    ((12 : ℚ) ≤ 13 ∧ ¬ (celpip_to_clb (some 12) ≤ celpip_to_clb (some 13))) ∧
    ¬ (celpip_to_clb (some 2) = 0 ∨
       (4 ≤ celpip_to_clb (some 2) ∧ celpip_to_clb (some 2) ≤ 12)) := by
  decide

/-- C6 amended: the IELTS and PTE conversions are monotonic non-decreasing in
the raw score and, on present scores, return levels in 4-12 (0 only for absent
scores); the CELPIP conversion returns 0 or the truncated score in 1-12, and
is monotonic non-decreasing only on raw scores below 13. -/
theorem C6_amended :
    (∀ a b : ℚ, a ≤ b → ielts_to_clb (some a) ≤ ielts_to_clb (some b)) ∧
    (∀ a b : ℚ, a ≤ b → pte_to_clb (some a) ≤ pte_to_clb (some b)) ∧
    (∀ a b : ℚ, a ≤ b → b < 13 → celpip_to_clb (some a) ≤ celpip_to_clb (some b)) ∧
    (∀ q : Option ℚ, ielts_to_clb q = 0 ∨ (4 ≤ ielts_to_clb q ∧ ielts_to_clb q ≤ 12)) ∧
    (∀ q : Option ℚ, pte_to_clb q = 0 ∨ (4 ≤ pte_to_clb q ∧ pte_to_clb q ≤ 12)) ∧
    (∀ q : Option ℚ, celpip_to_clb q = 0 ∨ (1 ≤ celpip_to_clb q ∧ celpip_to_clb q ≤ 12)) :=
  ⟨fun _ _ hab => ielts_to_clb_mono hab,
   fun _ _ hab => pte_to_clb_mono hab,
   fun _ _ hab hb => celpip_to_clb_mono hab hb,
   ielts_to_clb_range,
   pte_to_clb_range,
   celpip_to_clb_range⟩

theorem C6_amended_witness :
    ((1 : ℚ) ≤ 2 ∧ (2 : ℚ) < 13) ∧
    ielts_to_clb (some 1) ≤ ielts_to_clb (some 2) ∧
    pte_to_clb (some 1) ≤ pte_to_clb (some 2) ∧
    celpip_to_clb (some 1) ≤ celpip_to_clb (some 2) ∧
    (ielts_to_clb (some 2) = 0 ∨ (4 ≤ ielts_to_clb (some 2) ∧ ielts_to_clb (some 2) ≤ 12)) ∧
    (pte_to_clb (some 2) = 0 ∨ (4 ≤ pte_to_clb (some 2) ∧ pte_to_clb (some 2) ≤ 12)) ∧
    (celpip_to_clb (some 2) = 0 ∨ (1 ≤ celpip_to_clb (some 2) ∧ celpip_to_clb (some 2) ≤ 12)) :=
  ⟨by decide,
   C6_amended.1 1 2 (by decide),
   C6_amended.2.1 1 2 (by decide),
   C6_amended.2.2.1 1 2 (by decide) (by decide),
   C6_amended.2.2.2.1 (some 2),
   C6_amended.2.2.2.2.1 (some 2),
   C6_amended.2.2.2.2.2 (some 2)⟩

/-- C2 counterexample: with the alternate (AI) computation capability
unavailable, a `computeScore` call forcing the alternate method propagates the
exception to its caller instead of returning a ScoreBreakdown. -/
theorem C2_counterexample :
    dynamic_compute_crs dynEnvAIDown {} false true false =
      Except.error "CrewAI not available. Cannot use AI-based CRS calculator." := rfl

/-- C2 amended: the Method Selector's `compute_crs` returns a result without
propagating an exception for every input, environment and override
combination, except exactly when the alternate computation is forced (without
forcing the deterministic path) and the alternate computation fails, in which
case the exception propagates. -/
theorem C2_amended (env : DynEnv) (inp : CRSInput) (frc fai fh : Bool) :
    exceptIsOk (dynamic_compute_crs env inp frc fai fh) = (fh || !fai || !env.ai_raises) := by
  unfold dynamic_compute_crs exceptIsOk
  cases fh <;> cases fai <;> cases hai : env.ai_raises <;>
    simp only [hai, Bool.false_eq_true, Bool.true_eq_false, if_true, if_false,
      Bool.false_or, Bool.true_or, Bool.or_true, Bool.or_false, Bool.not_true,
      Bool.not_false, ite_self] <;>
    split_ifs <;> rfl

/-- C7: the Rule-Consistency Monitor never raises (its whole body is guarded);
when no official rule data could be obtained it returns a match verdict with
no detected changes and prefers the deterministic engine, and on any internal
failure it returns a result carrying the failure in its error field while
still preferring the deterministic engine. -/
theorem C7_rule_checker_failsafe (env : RuleCheckEnv) :
    (env.extracted = none →
      (check_crs_rules env).rules_match = true ∧
      (check_crs_rules env).changes_detected = [] ∧
      (check_crs_rules env).use_hardcoded = true) ∧
    (∀ e, env.internal_error = some e →
      (check_crs_rules env).error = some e ∧ (check_crs_rules env).use_hardcoded = true) := by
  unfold check_crs_rules
  cases hie : env.internal_error with
  | some e =>
    refine ⟨fun _ => ⟨rfl, rfl, rfl⟩, fun e' he' => ?_⟩
    cases he'
    exact ⟨rfl, rfl⟩
  | none =>
    refine ⟨fun hx => ?_, fun e' he' => ?_⟩
    · rw [hx]
      exact ⟨rfl, rfl, rfl⟩
    · cases he'

theorem C7_rule_checker_failsafe_witness :
    ((check_crs_rules envFetchFail).rules_match = true ∧
      (check_crs_rules envFetchFail).changes_detected = [] ∧
      (check_crs_rules envFetchFail).use_hardcoded = true) ∧
    ((check_crs_rules envInternalError).error = some "unexpected" ∧
      (check_crs_rules envInternalError).use_hardcoded = true) :=
  ⟨(C7_rule_checker_failsafe envFetchFail).1 rfl,
   (C7_rule_checker_failsafe envInternalError).2 "unexpected" rfl⟩

/-- C10: every result of the Monitor satisfies the invariant that the
rules-match flag, the prefer-deterministic flag and the emptiness of the
detected-changes list all agree, on the success path and on the error path. -/
theorem C10_verdict_flags_agree (env : RuleCheckEnv) :
    (check_crs_rules env).rules_match = (check_crs_rules env).use_hardcoded ∧
    (check_crs_rules env).rules_match = (check_crs_rules env).changes_detected.isEmpty := by
  unfold check_crs_rules
  cases env.internal_error with
  | some e => exact ⟨rfl, rfl⟩
  | none =>
    refine ⟨rfl, ?_⟩
    cases env.extracted with
    | none => rfl
    | some off => rfl

/-- C9: starting from any cache state, two Selector rule-check consultations
(default overrides) whose second call time lies within one TTL of the cached
verdict's timestamp invoke the Monitor at most once in total; and a
consultation with the force-refresh flag always invokes the Monitor exactly
once, regardless of the cache state. -/
theorem C9_cache_ttl (monitor : ℤ → CRSRuleCheckResult) (st0 : CacheState) (t1 t2 τ : ℤ)
    (hts : ((get_rule_check monitor st0 t1 false).2.1).cache_timestamp = some τ)
    (hwin : t2 - τ ≤ CACHE_DURATION) :
    (get_rule_check monitor st0 t1 false).2.2 +
      (get_rule_check monitor (get_rule_check monitor st0 t1 false).2.1 t2 false).2.2 ≤ 1 ∧
    (∀ st now, (get_rule_check monitor st now true).2.2 = 1) := by
  constructor
  · by_cases h1 : should_refresh_cache st0 t1 false = true
    · unfold get_rule_check at hts ⊢
      rw [if_pos h1] at hts ⊢
      have ht : τ = t1 := by
        have : some t1 = some τ := hts
        exact (Option.some.inj this).symm
      have h2 : should_refresh_cache ⟨some (monitor t1), some t1⟩ t2 false = false := by
        unfold should_refresh_cache
        simp only [Bool.false_eq_true, if_false, Option.isNone_some, Bool.or_self]
        exact decide_eq_false (by omega)
      rw [if_neg (by rw [h2]; exact Bool.false_ne_true)]
      norm_num
    · unfold get_rule_check
      rw [if_neg h1]
      dsimp only
      split_ifs <;> norm_num
  · intro st now
    unfold get_rule_check
    rw [if_pos (show should_refresh_cache st now true = true from rfl)]

theorem C9_cache_ttl_witness :
    ((get_rule_check constMonitor emptyCache 0 false).2.1.cache_timestamp = some 0 ∧
      (10 : ℤ) - 0 ≤ CACHE_DURATION) ∧
    ((get_rule_check constMonitor emptyCache 0 false).2.2 +
      (get_rule_check constMonitor (get_rule_check constMonitor emptyCache 0 false).2.1 10
        false).2.2 ≤ 1 ∧
    (∀ st now, (get_rule_check constMonitor st now true).2.2 = 1)) :=
  ⟨⟨by decide, by decide⟩, C9_cache_ttl constMonitor emptyCache 0 10 0 (by decide) (by decide)⟩

end CRS
